import Mathlib

/-!
Shallow embedding of `src/upload_queue.py` (class `UploadQueueManager`) from the
WooCommerce-Bulk-Products-Uploader repository, together with the abstract
capability interfaces it is written against (`wp_api.upload_media`,
`wc_api.create_product`, spec §6).  The per-task pipeline
(`_process_queue_worker`, lines 43-119) is embedded as a pure function
`processTask`; the manager's operations (`add_to_queue`, `get_stats`,
`get_queue_size`, `stop`, `wait_for_completion`) and the worker loop are
embedded as transition systems over explicit state records.
-/

namespace WooUpload

/-- A task dict as built by the producers and consumed by
`_process_queue_worker`: keys `title`, `description`, `price`, `category_id`,
optional `sku` (read with `task.get('sku', '')`), and the ordered list
`images` of asset paths. -/
structure Task where
  title : String
  description : String
  price : String
  category_id : Nat
  sku : Option String
  images : List String
deriving DecidableEq, Repr

/-- The media info dict returned by a successful `wp_api.upload_media` call:
`{'success': True, 'id': ..., 'url': ...}`. -/
structure MediaInfo where
  id : Nat
  url : String
deriving DecidableEq, Repr

/-- Outcome of one `wp_api.upload_media(image_path)` call.  The capability is
injected (spec §6); besides the two structured outcomes it may also throw,
which the worker catches at lines 110-119. -/
inductive UploadOutcome where
  | ok (info : MediaInfo)
  | fail (error : String)
  | raise (msg : String)
deriving DecidableEq, Repr

/-- The dict returned by `wc_api.create_product`: its `success` key is read at
line 96; all other keys are opaque to the worker and collapsed into `data`. -/
structure CreateRes where
  success : Bool
  data : String
deriving DecidableEq, Repr

/-- Outcome of one `wc_api.create_product(payload)` call: a structured return
or a thrown exception. -/
inductive CreateOutcome where
  | ret (r : CreateRes)
  | raise (msg : String)
deriving DecidableEq, Repr

/-- An entry of the payload's `images` list: `{'id': img_info['id']}`
(line 85). -/
structure ImageRef where
  id : Nat
deriving DecidableEq, Repr

/-- The `wc_product_data` dict built at lines 72-81. -/
structure ProductPayload where
  name : String
  description : String
  ptype : String
  regular_price : String
  categories : List Nat
  sku : String
  images : List ImageRef
deriving DecidableEq, Repr

/-- A result dict pushed onto `results_queue`.  The locally built failure
dicts (lines 63-68 and 113-118) carry `title` and `error`; the create-path
result (lines 92-93) is the create dict with `result['task'] = task` added.
All pushed results carry the originating task. -/
structure PResult where
  success : Bool
  title : Option String
  error : Option String
  data : Option String
  task : Task
deriving DecidableEq, Repr

/-- The image-upload loop, lines 52-60: upload each path in order; a
structured failure is logged and skipped; collect successful infos in order.
A thrown exception aborts the iteration and propagates to the worker's
`except` handler, discarding the collected list. -/
def uploadImages (upload : String → UploadOutcome) :
    List String → Except String (List MediaInfo)
  | [] => .ok []
  | p :: rest =>
    match upload p with
    | .ok info =>
      match uploadImages upload rest with
      | .ok l => .ok (info :: l)
      | .error m => .error m
    | .fail _ => uploadImages upload rest
    | .raise m => .error m

/-- The successfully uploaded infos, in the task's original order with failed
uploads skipped (what lines 52-60 collect when nothing throws). -/
def successes (upload : String → UploadOutcome) (paths : List String) :
    List MediaInfo :=
  paths.filterMap fun p =>
    match upload p with
    | .ok info => some info
    | .fail _ => none
    | .raise _ => none

/-- The image-attachment loop, lines 83-89: for index `i` and info, build
`{'id': ...}`; at `i == 0` it is inserted at position 0 (a prepend), otherwise
appended. -/
def addImagesLoop : List MediaInfo → Nat → List ImageRef → List ImageRef
  | [], _, acc => acc
  | info :: rest, i, acc =>
    addImagesLoop rest (i + 1)
      (if i = 0 then ⟨info.id⟩ :: acc else acc ++ [⟨info.id⟩])

/-- The `wc_product_data` dict of lines 72-89: fixed `type` `'simple'`,
`sku` from `task.get('sku', '')`, one category id, and the attached images. -/
def buildPayload (task : Task) (uploaded : List MediaInfo) : ProductPayload :=
  { name := task.title
    description := task.description
    ptype := "simple"
    regular_price := task.price
    categories := [task.category_id]
    sku := task.sku.getD ""
    images := addImagesLoop uploaded 0 [] }

/-- Which branch of the loop body a task iteration took: the
no-images-uploaded early return (lines 62-70), the create path (lines 72-106),
or the `except Exception` handler (lines 110-119). -/
inductive Branch where
  | noAssets
  | created
  | raised
deriving DecidableEq, Repr

/-- Everything one loop-body iteration of `_process_queue_worker` does for a
dequeued task: the payloads passed to `wc_api.create_product`, the result dict
pushed onto `results_queue`, the increments applied to
`stats['completed']`/`stats['failed']`, whether `task_done()` was called, and
the branch taken. -/
structure StepOut where
  createCalls : List ProductPayload
  result : PResult
  completedDelta : Nat
  failedDelta : Nat
  taskDone : Bool
  branch : Branch
deriving DecidableEq, Repr

/-- The loop body of `_process_queue_worker` (lines 49-119) for one dequeued
task, with the two capability calls abstracted as functions.  Exceptions from
either capability land in the `except Exception as e` handler, which builds a
failure dict from `str(e)` and `task.get('title', 'Unknown')`, increments
`stats['failed']`, pushes the dict and marks the task done (lines 110-119). -/
def processTask (upload : String → UploadOutcome)
    (create : ProductPayload → CreateOutcome) (task : Task) : StepOut :=
  match uploadImages upload task.images with
  | .error m =>
    { createCalls := []
      result := { success := false, title := some task.title, error := some m,
                  data := none, task := task }
      completedDelta := 0
      failedDelta := 1
      taskDone := true
      branch := .raised }
  | .ok [] =>
    { createCalls := []
      result := { success := false, title := some task.title,
                  error := some "No images uploaded successfully",
                  data := none, task := task }
      completedDelta := 0
      failedDelta := 0
      taskDone := true
      branch := .noAssets }
  | .ok (u :: us) =>
    match create (buildPayload task (u :: us)) with
    | .raise m =>
      { createCalls := [buildPayload task (u :: us)]
        result := { success := false, title := some task.title, error := some m,
                    data := none, task := task }
        completedDelta := 0
        failedDelta := 1
        taskDone := true
        branch := .raised }
    | .ret r =>
      { createCalls := [buildPayload task (u :: us)]
        result := { success := r.success, title := none, error := none,
                    data := some r.data, task := task }
        completedDelta := if r.success then 1 else 0
        failedDelta := if r.success then 0 else 1
        taskDone := true
        branch := .created }

/-- The `self.stats` dict (lines 20-24). -/
structure Stats where
  completed : Nat
  failed : Nat
  total : Nat
deriving DecidableEq, Repr

/-- Manager state at the granularity of whole operations: `running`, the
contents of `upload_queue` (FIFO), `stats`, the sequence of results pushed
onto `results_queue` (in push order, never removed in this model), the
queue's `unfinished_tasks` count (incremented by `put`, decremented by
`task_done`, what `join()` waits on), and a bookkeeping trace of the branch
each completed worker iteration took. -/
structure Sys where
  running : Bool
  queue : List Task
  stats : Stats
  results : List PResult
  unfinished : Nat
  trace : List Branch
deriving DecidableEq, Repr

/-- The freshly constructed manager: empty queues, all counters zero,
`running = True` (lines 13-24). -/
def sysInit : Sys :=
  { running := true, queue := [], stats := ⟨0, 0, 0⟩, results := [],
    unfinished := 0, trace := [] }

/-- `add_to_queue` (lines 139-143): `put` the task (unbounded `queue.Queue`,
so the put never blocks and never rejects), increment `stats['total']`, and
return `qsize()`.  Total function: it accepts every task in every state. -/
def add_to_queue (s : Sys) (t : Task) : Nat × Sys :=
  let s' : Sys :=
    { s with queue := s.queue ++ [t],
             stats := { s.stats with total := s.stats.total + 1 },
             unfinished := s.unfinished + 1 }
  (s'.queue.length, s')

/-- `get_stats` (lines 153-155): `return self.stats.copy()` — yields the
current counter values and leaves the state untouched. -/
def get_stats (s : Sys) : Stats × Sys := (s.stats, s)

/-- `get_queue_size` (lines 145-147): `return self.upload_queue.qsize()`. -/
def get_queue_size (s : Sys) : Nat × Sys := (s.queue.length, s)

/-- One whole iteration of the worker loop applied to the dequeued task `t`
(head of the queue), with `rest` the remaining queue: apply `processTask`,
add its deltas to the stats, append its result dict to the results queue,
decrement `unfinished_tasks` (the `task_done()` call), and record the branch
taken. -/
def workerIter (upload : String → UploadOutcome)
    (create : ProductPayload → CreateOutcome) (t : Task) (rest : List Task)
    (s : Sys) : Sys :=
  { running := s.running
    queue := rest
    stats := { completed := s.stats.completed
                          + (processTask upload create t).completedDelta
               failed := s.stats.failed + (processTask upload create t).failedDelta
               total := s.stats.total }
    results := s.results ++ [(processTask upload create t).result]
    unfinished := s.unfinished - 1
    trace := s.trace ++ [(processTask upload create t).branch] }

/-- Operation-granular transition relation of the manager: a producer call to
`add_to_queue`, one whole worker-loop iteration (any capability behaviour),
the two read operations, and `stop()` clearing the running flag
(line 159). -/
inductive SysStep : Sys → Sys → Prop where
  | submit (s : Sys) (t : Task) : SysStep s (add_to_queue s t).2
  | work (s : Sys) (t : Task) (rest : List Task)
      (upload : String → UploadOutcome)
      (create : ProductPayload → CreateOutcome) :
      s.running = true → s.queue = t :: rest →
      SysStep s (workerIter upload create t rest s)
  | readStats (s : Sys) : SysStep s (get_stats s).2
  | readSize (s : Sys) : SysStep s (get_queue_size s).2
  | stopOp (s : Sys) : SysStep s { s with running := false }

/-- States reachable from the freshly constructed manager. -/
def SysReachable (s : Sys) : Prop := Relation.ReflTransGen SysStep sysInit s

/-- Count of worker iterations that took the no-images-uploaded branch. -/
def countNoAssets (l : List Branch) : Nat :=
  l.countP fun b => decide (b = Branch.noAssets)

/-- Control position of a worker thread inside `_process_queue_worker`:
about to evaluate `while self.running` (line 45), blocked inside
`upload_queue.get(timeout=1)` (line 48), running the loop body for a dequeued
task, or exited the loop. -/
inductive Phase where
  | loopHead
  | inGet
  | processing (t : Task)
  | stopped
deriving DecidableEq, Repr

/-- Fine-grained state of one worker plus its environment: the `running`
flag, the task queue, the worker's control position, and the pushed
results. -/
structure WState where
  running : Bool
  queue : List Task
  phase : Phase
  results : List PResult
deriving DecidableEq, Repr

/-- Interleaved small-step relation for one worker and the external calls
that can race with it.  The `running` flag is read only at the loop head
(line 45); `get(timeout=1)` returns a task whenever the queue is non-empty,
raises `queue.Empty` (caught, `continue`) only when it stays empty; the loop
body runs to completion and returns to the loop head; `add_to_queue` and
`stop()` can fire at any moment. -/
inductive WStep : WState → WState → Prop where
  | checkRunTrue (q : List Task) (res : List PResult) :
      WStep ⟨true, q, .loopHead, res⟩ ⟨true, q, .inGet, res⟩
  | checkRunFalse (q : List Task) (res : List PResult) :
      WStep ⟨false, q, .loopHead, res⟩ ⟨false, q, .stopped, res⟩
  | getTimeout (r : Bool) (res : List PResult) :
      WStep ⟨r, [], .inGet, res⟩ ⟨r, [], .loopHead, res⟩
  | getTask (r : Bool) (t : Task) (rest : List Task) (res : List PResult) :
      WStep ⟨r, t :: rest, .inGet, res⟩ ⟨r, rest, .processing t, res⟩
  | finishTask (r : Bool) (q : List Task) (res : List PResult) (t : Task)
      (upload : String → UploadOutcome)
      (create : ProductPayload → CreateOutcome) :
      WStep ⟨r, q, .processing t, res⟩
        ⟨r, q, .loopHead, res ++ [(processTask upload create t).result]⟩
  | submitTask (r : Bool) (q : List Task) (ph : Phase) (res : List PResult)
      (t : Task) :
      WStep ⟨r, q, ph, res⟩ ⟨r, q ++ [t], ph, res⟩
  | stopCall (r : Bool) (q : List Task) (ph : Phase) (res : List PResult) :
      WStep ⟨r, q, ph, res⟩ ⟨false, q, ph, res⟩

/-- A freshly started worker: running, idle at the loop head, nothing queued
or produced. -/
def winit : WState := ⟨true, [], .loopHead, []⟩

/-- Worker states reachable from start. -/
def WReachable (s : WState) : Prop := Relation.ReflTransGen WStep winit s

/-- `q'` is `q` with zero or more tasks appended at the tail (the only way
the queue changes while no task is dequeued). -/
def queueExtends (q q' : List Task) : Prop := ∃ extra, q' = q ++ extra

/-- Once a worker is mid-pipeline it always returns to its loop head: no step
out of a `processing` phase reaches `stopped`, so a task's failure can only
hand control back to the `while self.running` check. -/
def workerSurvivesProcessing : Prop :=
  ∀ (s s' : WState) (t : Task), WStep s s' → s.phase = Phase.processing t →
    s'.phase = Phase.processing t ∨ s'.phase = Phase.loopHead

/-- The blocking behaviour `wait_for_completion` delegates to:
`upload_queue.join()`, which returns exactly when `unfinished_tasks` reaches
zero and imposes no deadline of its own. -/
inductive BlockingCall where
  | joinUntilAllDone
deriving DecidableEq, Repr

/-- `wait_for_completion` (lines 166-168): the body is
`self.upload_queue.join()`; the `timeout` parameter is never read. -/
def wait_for_completion (timeout : Option Nat) : BlockingCall :=
  .joinUntilAllDone

/-- When a blocking call returns in a given manager state. -/
def blockingCallReturns : BlockingCall → Sys → Prop
  | .joinUntilAllDone, s => s.unfinished = 0

/-- Heap of Python dict cells, for the aliasing behaviour of
`get_stats`: an address holds a stats dict. -/
def heapWrite (h : Nat → Stats) (a : Nat) (v : Stats) : Nat → Stats :=
  fun x => if x = a then v else h x

/-- `return self.stats.copy()` in heap terms: allocate the fresh cell `dst`
holding the contents of the internal cell `src`; no other cell changes. -/
def statsCopy (h : Nat → Stats) (src dst : Nat) : Nat → Stats :=
  fun a => if a = dst then h src else h a

/-- An assetless task: `task['images'] == []`. -/
def taskC1 : Task :=
  { title := "Widget", description := "desc", price := "9.99",
    category_id := 5, sku := none, images := [] }

/-- An uploader that succeeds on every path. -/
def uploadC1 : String → UploadOutcome := fun _ => .ok ⟨1, "u1"⟩

/-- A record creator that succeeds on every payload. -/
def createC1 : ProductPayload → CreateOutcome := fun _ => .ret ⟨true, "created"⟩

/-- A task declaring one asset, used to drive the all-uploads-fail path. -/
def taskC2 : Task :=
  { title := "Widget", description := "desc", price := "9.99",
    category_id := 5, sku := none, images := ["a.jpg"] }

/-- An uploader that fails (structurally) on every path. -/
def uploadC2 : String → UploadOutcome := fun _ => .fail "HTTP 500"

/-- A record creator that succeeds on every payload. -/
def createC2 : ProductPayload → CreateOutcome := fun _ => .ret ⟨true, "created"⟩

/-- Manager state after submitting `taskC2` to a fresh manager. -/
def sC2a : Sys := (add_to_queue sysInit taskC2).2

/-- Manager state after one worker iteration consumed `taskC2` with every
upload failing: one result pushed, no counter incremented. -/
def sC2b : Sys := workerIter uploadC2 createC2 taskC2 [] sC2a

/-- Scenario A task: two declared assets. -/
def taskC3 : Task :=
  { title := "Widget", description := "desc", price := "9.99",
    category_id := 5, sku := some "SKU1", images := ["a.jpg", "b.jpg"] }

/-- Scenario A uploader: `"a.jpg"` succeeds with id 1, everything else fails
structurally. -/
def uploadC3 : String → UploadOutcome :=
  fun p => if p = "a.jpg" then .ok ⟨1, "u1"⟩ else .fail "HTTP 500"

/-- A record creator that succeeds on every payload. -/
def createC3 : ProductPayload → CreateOutcome := fun _ => .ret ⟨true, "created"⟩

/-- Same shape as `taskC2`: one declared asset, for the all-fail scenario. -/
def taskC4 : Task :=
  { title := "Widget", description := "desc", price := "9.99",
    category_id := 5, sku := none, images := ["a.jpg", "b.jpg"] }

/-- An uploader that fails (structurally) on every path. -/
def uploadC4 : String → UploadOutcome := fun _ => .fail "HTTP 500"

/-- A record creator that succeeds on every payload. -/
def createC4 : ProductPayload → CreateOutcome := fun _ => .ret ⟨true, "created"⟩

/-- A task whose single upload will throw. -/
def taskC5 : Task :=
  { title := "Widget", description := "desc", price := "9.99",
    category_id := 5, sku := none, images := ["a.jpg"] }

/-- An uploader that throws on every path. -/
def uploadC5 : String → UploadOutcome := fun _ => .raise "boom"

/-- A record creator that succeeds on every payload. -/
def createC5 : ProductPayload → CreateOutcome := fun _ => .ret ⟨true, "created"⟩

/-- The task left in the queue when `stop()` is called in the C6 trace. -/
def tC6 : Task :=
  { title := "Widget", description := "desc", price := "9.99",
    category_id := 5, sku := none, images := ["a.jpg"] }

/-- An uploader that succeeds on every path. -/
def uploadC6 : String → UploadOutcome := fun _ => .ok ⟨1, "u1"⟩

/-- A record creator that succeeds on every payload. -/
def createC6 : ProductPayload → CreateOutcome := fun _ => .ret ⟨true, "created"⟩

/-- Worker state at the moment `stop()` returns in the C6 trace: the flag is
already false, `tC6` sits in the queue, and the worker is blocked inside
`get(timeout=1)` — not mid-pipeline. -/
def wD : WState := ⟨false, [tC6], .inGet, []⟩

/-- Worker state after the blocked `get` hands `tC6` to the worker and the
worker runs the whole pipeline for it: a result for `tC6` has been pushed
although `stop()` completed while `tC6` was still queued. -/
def wF : WState :=
  ⟨false, [], .loopHead, [(processTask uploadC6 createC6 tC6).result]⟩

/-- Worker state where `stop()` has been observed-safe: the flag is false and
the worker sits at its loop head with `tC6` still queued. -/
def wG : WState := ⟨false, [tC6], .loopHead, []⟩

/-- Worker state after `wG`'s worker re-checks the flag and exits: the queued
task is still there, untouched, and no result was produced. -/
def wGstop : WState := ⟨false, [tC6], .stopped, []⟩

/-- A concrete heap: every cell holds the same stats dict. -/
def hC10 : Nat → Stats := fun _ => ⟨1, 2, 3⟩

/-- A concrete stats value a caller writes into the returned copy. -/
def vC10 : Stats := ⟨5, 6, 7⟩

theorem addImagesLoop_of_ne_zero (l : List MediaInfo) :
    ∀ (i : Nat) (acc : List ImageRef), i ≠ 0 →
      addImagesLoop l i acc = acc ++ l.map (fun m => ImageRef.mk m.id) := by
  induction l with
  | nil => intro i acc _; simp [addImagesLoop]
  | cons x xs ih =>
    intro i acc hi
    simp only [addImagesLoop, if_neg hi, List.map_cons]
    rw [ih (i + 1) _ (Nat.succ_ne_zero i)]
    simp

theorem buildPayload_images (task : Task) (uploaded : List MediaInfo) :
    (buildPayload task uploaded).images
      = uploaded.map (fun m => ImageRef.mk m.id) := by
  cases uploaded with
  | nil => rfl
  | cons u us =>
    show addImagesLoop (u :: us) 0 [] = _
    simp only [addImagesLoop, if_pos rfl]
    rw [addImagesLoop_of_ne_zero us 1 _ Nat.one_ne_zero]
    simp

theorem uploadImages_no_raise (upload : String → UploadOutcome) :
    ∀ paths : List String,
      (∀ p ∈ paths, ∀ m, upload p ≠ UploadOutcome.raise m) →
      uploadImages upload paths = Except.ok (successes upload paths) := by
  intro paths
  induction paths with
  | nil => intro _; rfl
  | cons p rest ih =>
    intro h
    have hrest := ih fun q hq => h q (List.mem_cons_of_mem p hq)
    have hp := h p (List.mem_cons_self p rest)
    cases hup : upload p with
    | ok info =>
      have hs : successes upload (p :: rest) = info :: successes upload rest := by
        simp [successes, List.filterMap_cons, hup]
      rw [hs]
      simp only [uploadImages, hup, hrest]
    | fail e =>
      have hs : successes upload (p :: rest) = successes upload rest := by
        simp [successes, List.filterMap_cons, hup]
      rw [hs]
      simp only [uploadImages, hup]
      exact hrest
    | raise m => exact absurd hup (hp m)

theorem uploadImages_all_fail (upload : String → UploadOutcome) :
    ∀ paths : List String,
      (∀ p ∈ paths, ∃ e, upload p = UploadOutcome.fail e) →
      uploadImages upload paths = Except.ok [] := by
  intro paths
  induction paths with
  | nil => intro _; rfl
  | cons p rest ih =>
    intro h
    obtain ⟨e, he⟩ := h p (List.mem_cons_self p rest)
    simp only [uploadImages, he]
    exact ih fun q hq => h q (List.mem_cons_of_mem p hq)

theorem processTask_delta (upload : String → UploadOutcome)
    (create : ProductPayload → CreateOutcome) (task : Task) :
    (processTask upload create task).completedDelta
      + (processTask upload create task).failedDelta
      + (if (processTask upload create task).branch = Branch.noAssets
          then 1 else 0) = 1 := by
  unfold processTask
  cases uploadImages upload task.images with
  | error m => simp
  | ok l =>
    cases l with
    | nil => simp
    | cons u us =>
      cases hc : create (buildPayload task (u :: us)) with
      | raise m => simp [hc]
      | ret r => cases hr : r.success <;> simp [hc, hr]

theorem countNoAssets_append (l : List Branch) (b : Branch) :
    countNoAssets (l ++ [b])
      = countNoAssets l + (if b = Branch.noAssets then 1 else 0) := by
  unfold countNoAssets
  rw [List.countP_append]
  cases b <;> simp [List.countP_cons, List.countP_nil]

theorem workerSurvives_holds : workerSurvivesProcessing := by
  intro s s' t hstep hph
  cases hstep <;> simp_all

/-- C1: the claim says a task with an empty declared asset list proceeds to
record creation.  It is false on the code: for the concrete assetless task,
`uploaded_images` stays empty, the `if not uploaded_images` branch
(lines 62-70) fires, `create_product` is never called and a failed result is
pushed. -/
theorem C1_counterexample :
    taskC1.images = [] ∧
    (processTask uploadC1 createC1 taskC1).createCalls = [] ∧
    (processTask uploadC1 createC1 taskC1).result.success = false ∧
    (processTask uploadC1 createC1 taskC1).result.error
      = some "No images uploaded successfully" :=
  ⟨rfl, rfl, rfl, rfl⟩

/-- C1 amended: for every task whose declared asset list is empty, the worker
takes the no-images branch — `create_product` is never invoked and a failed
result with error `'No images uploaded successfully'` is pushed, whatever the
capabilities do. -/
theorem C1_empty_assets_fail :
    ∀ (upload : String → UploadOutcome)
      (create : ProductPayload → CreateOutcome) (task : Task),
      task.images = [] →
      (processTask upload create task).createCalls = [] ∧
      (processTask upload create task).result.success = false ∧
      (processTask upload create task).result.error
        = some "No images uploaded successfully" ∧
      (processTask upload create task).branch = Branch.noAssets := by
  intro upload create task h
  have hup : uploadImages upload task.images = Except.ok [] := by rw [h]; rfl
  unfold processTask
  rw [hup]
  exact ⟨rfl, rfl, rfl, rfl⟩

/-- C1 amended, witness: the amended statement applied to the concrete
assetless task. -/
theorem C1_empty_assets_fail_witness :
    taskC1.images = [] ∧
    ((processTask uploadC1 createC1 taskC1).createCalls = [] ∧
     (processTask uploadC1 createC1 taskC1).result.success = false ∧
     (processTask uploadC1 createC1 taskC1).result.error
       = some "No images uploaded successfully" ∧
     (processTask uploadC1 createC1 taskC1).branch = Branch.noAssets) :=
  ⟨rfl, C1_empty_assets_fail uploadC1 createC1 taskC1 rfl⟩

/-- C3: for every task where at least one asset uploads successfully (and no
upload throws), `create_product` is called exactly once; its payload's image
list equals the successfully uploaded assets in the task's original order
with failures skipped, and the first successful upload sits first. -/
theorem C3_create_once_ordered :
    ∀ (upload : String → UploadOutcome)
      (create : ProductPayload → CreateOutcome) (task : Task),
      (∀ p ∈ task.images, ∀ m, upload p ≠ UploadOutcome.raise m) →
      successes upload task.images ≠ [] →
      (processTask upload create task).createCalls
        = [buildPayload task (successes upload task.images)] ∧
      (buildPayload task (successes upload task.images)).images
        = (successes upload task.images).map (fun m => ImageRef.mk m.id) ∧
      (buildPayload task (successes upload task.images)).images.head?
        = (successes upload task.images).head?.map (fun m => ImageRef.mk m.id)
    := by
  intro upload create task hnr hne
  have hup := uploadImages_no_raise upload task.images hnr
  have himg := buildPayload_images task (successes upload task.images)
  refine ⟨?_, himg, ?_⟩
  · cases hs : successes upload task.images with
    | nil => exact absurd hs hne
    | cons u us =>
      rw [hs] at hup
      simp only [processTask, hup]
      cases hc : create (buildPayload task (u :: us)) with
      | raise m => simp [hc]
      | ret r => simp [hc]
  · rw [himg]
    cases successes upload task.images <;> simp

/-- C3 witness: Scenario A — `"a.jpg"` uploads with id 1, `"b.jpg"` fails;
the payload carries exactly `[{'id': 1}]` with id 1 featured first. -/
theorem C3_create_once_ordered_witness :
    successes uploadC3 taskC3.images ≠ [] ∧
    successes uploadC3 taskC3.images = [MediaInfo.mk 1 "u1"] ∧
    ((processTask uploadC3 createC3 taskC3).createCalls
        = [buildPayload taskC3 (successes uploadC3 taskC3.images)] ∧
     (buildPayload taskC3 (successes uploadC3 taskC3.images)).images
        = (successes uploadC3 taskC3.images).map (fun m => ImageRef.mk m.id) ∧
     (buildPayload taskC3 (successes uploadC3 taskC3.images)).images.head?
        = (successes uploadC3 taskC3.images).head?.map
            (fun m => ImageRef.mk m.id)) :=
  ⟨by decide, by decide,
   C3_create_once_ordered uploadC3 createC3 taskC3
     (by intro p hp m; by_cases hc : p = "a.jpg" <;> simp [uploadC3, hc])
     (by decide)⟩

/-- C4: the claim quotes the failure message "no assets uploaded
successfully"; the code's literal message (line 66) is
`'No images uploaded successfully'`.  Concretely: a task with two declared
assets whose uploads all fail produces a failed result, never calls
`create_product`, but carries the other message. -/
theorem C4_counterexample :
    taskC4.images = ["a.jpg", "b.jpg"] ∧
    uploadC4 "a.jpg" = UploadOutcome.fail "HTTP 500" ∧
    uploadC4 "b.jpg" = UploadOutcome.fail "HTTP 500" ∧
    (processTask uploadC4 createC4 taskC4).createCalls = [] ∧
    (processTask uploadC4 createC4 taskC4).result.success = false ∧
    (processTask uploadC4 createC4 taskC4).result.error
      ≠ some "no assets uploaded successfully" ∧
    (processTask uploadC4 createC4 taskC4).result.error
      = some "No images uploaded successfully" :=
  ⟨rfl, rfl, rfl, rfl, rfl, by decide, rfl⟩

/-- C4 amended: for every task with at least one declared asset all of whose
uploads fail structurally, `create_product` is never invoked and the pushed
result is failed with error `'No images uploaded successfully'` (the code's
literal message; the claim's quoted string differs). -/
theorem C4_all_fail_no_create :
    ∀ (upload : String → UploadOutcome)
      (create : ProductPayload → CreateOutcome) (task : Task),
      task.images ≠ [] →
      (∀ p ∈ task.images, ∃ e, upload p = UploadOutcome.fail e) →
      (processTask upload create task).createCalls = [] ∧
      (processTask upload create task).result.success = false ∧
      (processTask upload create task).result.error
        = some "No images uploaded successfully" ∧
      (processTask upload create task).branch = Branch.noAssets := by
  intro upload create task _ hfail
  have hup := uploadImages_all_fail upload task.images hfail
  unfold processTask
  rw [hup]
  exact ⟨rfl, rfl, rfl, rfl⟩

/-- C4 amended, witness: the amended statement at the concrete all-fail
scenario. -/
theorem C4_all_fail_no_create_witness :
    taskC4.images ≠ [] ∧
    ((processTask uploadC4 createC4 taskC4).createCalls = [] ∧
     (processTask uploadC4 createC4 taskC4).result.success = false ∧
     (processTask uploadC4 createC4 taskC4).result.error
       = some "No images uploaded successfully" ∧
     (processTask uploadC4 createC4 taskC4).branch = Branch.noAssets) :=
  ⟨by decide,
   C4_all_fail_no_create uploadC4 createC4 taskC4 (by decide)
     (fun p _ => ⟨"HTTP 500", rfl⟩)⟩

/-- C5: when a capability throws during a task's pipeline — during an upload
or during record creation — the `except Exception` handler (lines 110-119)
produces a failed result that references the originating task and carries the
exception message, marks the task done, counts it failed, and the worker
returns to its loop head: no step out of a `processing` phase reaches
`stopped`. -/
theorem C5_exception_caught :
    ∀ (upload : String → UploadOutcome)
      (create : ProductPayload → CreateOutcome) (task : Task) (m : String),
      (uploadImages upload task.images = Except.error m ∨
        ∃ u us, uploadImages upload task.images = Except.ok (u :: us) ∧
          create (buildPayload task (u :: us)) = CreateOutcome.raise m) →
      (processTask upload create task).result.success = false ∧
      (processTask upload create task).result.error = some m ∧
      (processTask upload create task).result.task = task ∧
      (processTask upload create task).taskDone = true ∧
      (processTask upload create task).branch = Branch.raised ∧
      (processTask upload create task).failedDelta = 1 ∧
      workerSurvivesProcessing := by
  intro upload create task m h
  rcases h with h | ⟨u, us, hok, hc⟩
  · unfold processTask
    rw [h]
    exact ⟨rfl, rfl, rfl, rfl, rfl, rfl, workerSurvives_holds⟩
  · simp [processTask, hok, hc, workerSurvives_holds]

/-- C5 witness: an uploader that throws `"boom"` on the task's single asset;
the handler converts it into a failed result carrying `"boom"`. -/
theorem C5_exception_caught_witness :
    uploadImages uploadC5 taskC5.images = Except.error "boom" ∧
    ((processTask uploadC5 createC5 taskC5).result.success = false ∧
     (processTask uploadC5 createC5 taskC5).result.error = some "boom" ∧
     (processTask uploadC5 createC5 taskC5).result.task = taskC5 ∧
     (processTask uploadC5 createC5 taskC5).taskDone = true ∧
     (processTask uploadC5 createC5 taskC5).branch = Branch.raised ∧
     (processTask uploadC5 createC5 taskC5).failedDelta = 1 ∧
     workerSurvivesProcessing) :=
  ⟨rfl, C5_exception_caught uploadC5 createC5 taskC5 "boom" (Or.inl rfl)⟩

/-- C7: `add_to_queue` is a total function — it accepts every task in every
state (the unbounded `queue.Queue.put` never blocks or rejects) — it appends
the task at the tail of the queue, returns the queue's current depth
(`qsize()` right after the put), increments only the `total` counter, and
touches nothing else. -/
theorem C7_submit_unconditional :
    ∀ (s : Sys) (t : Task),
      (add_to_queue s t).1 = (add_to_queue s t).2.queue.length ∧
      (add_to_queue s t).1 = s.queue.length + 1 ∧
      (add_to_queue s t).2.queue = s.queue ++ [t] ∧
      (add_to_queue s t).2.stats.total = s.stats.total + 1 ∧
      (add_to_queue s t).2.stats.completed = s.stats.completed ∧
      (add_to_queue s t).2.stats.failed = s.stats.failed ∧
      (add_to_queue s t).2.results = s.results := by
  intro s t
  simp [add_to_queue]

/-- C8: every operation of the manager — submit, a worker iteration, the two
reads, `stop()` — leaves each of the three counters at or above its previous
value, and the read operations return the state unchanged. -/
theorem C8_counters_monotone :
    ∀ s s' : Sys, SysStep s s' →
      s.stats.completed ≤ s'.stats.completed ∧
      s.stats.failed ≤ s'.stats.failed ∧
      s.stats.total ≤ s'.stats.total ∧
      (get_stats s).2 = s ∧ (get_queue_size s).2 = s := by
  intro s s' h
  cases h <;> simp [add_to_queue, workerIter, get_stats, get_queue_size]

/-- C8 witness: the monotonicity statement applied to the read-stats step on
the fresh manager. -/
theorem C8_counters_monotone_witness :
    SysStep sysInit (get_stats sysInit).2 ∧
    (sysInit.stats.completed ≤ (get_stats sysInit).2.stats.completed ∧
     sysInit.stats.failed ≤ (get_stats sysInit).2.stats.failed ∧
     sysInit.stats.total ≤ (get_stats sysInit).2.stats.total ∧
     (get_stats sysInit).2 = sysInit ∧ (get_queue_size sysInit).2 = sysInit) :=
  ⟨SysStep.readStats sysInit,
   C8_counters_monotone sysInit (get_stats sysInit).2
     (SysStep.readStats sysInit)⟩

/-- C9: `wait_for_completion` ignores its `timeout` parameter — any two
timeout values yield the identical call — and the call it makes is
`upload_queue.join()`, which returns exactly when the unfinished-task count
is zero, with no deadline of its own. -/
theorem C9_timeout_ignored :
    ∀ t1 t2 : Option Nat,
      wait_for_completion t1 = wait_for_completion t2 ∧
      (∀ s : Sys,
        blockingCallReturns (wait_for_completion t1) s ↔ s.unfinished = 0) :=
  fun _ _ => ⟨rfl, fun _ => Iff.rfl⟩

/-- C10: `get_stats` returns an independent copy — in heap terms, it fills a
fresh cell `dst` with the contents of the internal cell `src`: the internal
cell is unchanged by the call, the copy has the same contents, a caller
overwriting the copy leaves the internal cell unchanged, and any subsequent
snapshot (into any cell `dst2`) still reads the original contents. -/
theorem C10_stats_copy_independent :
    ∀ (h : Nat → Stats) (src dst dst2 : Nat) (v : Stats),
      dst ≠ src →
      statsCopy h src dst src = h src ∧
      statsCopy h src dst dst = h src ∧
      heapWrite (statsCopy h src dst) dst v src = h src ∧
      statsCopy (heapWrite (statsCopy h src dst) dst v) src dst2 dst2
        = h src := by
  intro h src dst dst2 v hne
  have hsd : ¬src = dst := fun hh => hne hh.symm
  refine ⟨?_, ?_, ?_, ?_⟩ <;> simp [statsCopy, heapWrite, hsd]

/-- C10 witness: the copy-independence statement on a concrete heap, with the
internal dict at cell 0, the copy at cell 1, and a later snapshot at
cell 2. -/
theorem C10_stats_copy_independent_witness :
    (1 : Nat) ≠ 0 ∧
    (statsCopy hC10 0 1 0 = hC10 0 ∧
     statsCopy hC10 0 1 1 = hC10 0 ∧
     heapWrite (statsCopy hC10 0 1) 1 vC10 0 = hC10 0 ∧
     statsCopy (heapWrite (statsCopy hC10 0 1) 1 vC10) 0 2 2 = hC10 0) :=
  ⟨by decide, C10_stats_copy_independent hC10 0 1 2 vC10 (by decide)⟩

theorem reach_sC2b : SysReachable sC2b := by
  have h1 : SysStep sysInit sC2a := SysStep.submit sysInit taskC2
  have h2 : SysStep sC2a sC2b :=
    SysStep.work sC2a taskC2 [] uploadC2 createC2 rfl rfl
  exact Relation.ReflTransGen.tail (Relation.ReflTransGen.single h1) h2

/-- C2: the claim says completed+failed equals the number of results pushed
in every reachable state.  It is false on the code: the no-images-uploaded
early return (lines 62-70) pushes a failed result without touching either
counter.  Concretely: submit one task whose only upload fails, let one worker
iteration consume it — one result is on the results queue while both counters
are still zero. -/
theorem C2_counterexample :
    SysReachable sC2b ∧ sC2b.results.length = 1 ∧
    sC2b.stats.completed + sC2b.stats.failed = 0 :=
  ⟨reach_sC2b, rfl, rfl⟩

/-- C2 amended: in every reachable state, completed+failed equals the number
of pushed results minus the number of no-images-uploaded failure results —
the create-path and exception-path results are each matched by exactly one
counter increment, but the no-images failure result is pushed without any
increment. -/
theorem C2_stats_invariant :
    ∀ s : Sys, SysReachable s →
      s.stats.completed + s.stats.failed + countNoAssets s.trace
        = s.results.length := by
  intro s h
  induction h with
  | refl => rfl
  | tail hab hbc ih =>
    cases hbc with
    | submit t => simpa [add_to_queue] using ih
    | work t rest upload create hrun hq =>
      have hd := processTask_delta upload create t
      simp only [workerIter, countNoAssets_append, List.length_append,
        List.length_singleton]
      omega
    | readStats => simpa [get_stats] using ih
    | readSize => simpa [get_queue_size] using ih
    | stopOp => simpa using ih

/-- C2 amended, witness: the amended invariant at the concrete reachable
state with one uncounted no-images failure result. -/
theorem C2_stats_invariant_witness :
    SysReachable sC2b ∧
    sC2b.stats.completed + sC2b.stats.failed + countNoAssets sC2b.trace
      = sC2b.results.length :=
  ⟨reach_sC2b, C2_stats_invariant sC2b reach_sC2b⟩

theorem reach_wD : WReachable wD := by
  have h1 : WStep winit ⟨true, [], .inGet, []⟩ := WStep.checkRunTrue [] []
  have h2 : WStep ⟨true, [], .inGet, []⟩ ⟨true, [tC6], .inGet, []⟩ :=
    WStep.submitTask true [] .inGet [] tC6
  have h3 : WStep ⟨true, [tC6], .inGet, []⟩ wD :=
    WStep.stopCall true [tC6] .inGet []
  exact Relation.ReflTransGen.tail
    (Relation.ReflTransGen.tail (Relation.ReflTransGen.single h1) h2) h3

theorem steps_wD_wF : Relation.ReflTransGen WStep wD wF := by
  have h4 : WStep wD ⟨false, [], .processing tC6, []⟩ :=
    WStep.getTask false tC6 [] []
  have h5 : WStep ⟨false, [], .processing tC6, []⟩ wF :=
    WStep.finishTask false [] [] tC6 uploadC6 createC6
  exact Relation.ReflTransGen.tail (Relation.ReflTransGen.single h4) h5

/-- C6: the claim says a task still in the queue when `stop()` is called
(no worker mid-pipeline) is never dequeued and no result is ever produced for
it.  It is false on the code: `running` is only re-checked at the loop head
(line 45), so a worker already blocked inside `get(timeout=1)` when `stop()`
flips the flag still receives the queued task and runs the whole pipeline.
Concretely: `wD` is reachable with the flag false, `tC6` queued and the
worker in `get` (not mid-pipeline), and from `wD` the system steps to `wF`
whose results queue holds a result for `tC6`. -/
theorem C6_counterexample :
    WReachable wD ∧ wD.running = false ∧ wD.phase = Phase.inGet ∧
    tC6 ∈ wD.queue ∧ Relation.ReflTransGen WStep wD wF ∧
    (processTask uploadC6 createC6 tC6).result ∈ wF.results ∧
    (processTask uploadC6 createC6 tC6).result.task = tC6 :=
  ⟨reach_wD, rfl, rfl, List.mem_singleton_self tC6, steps_wD_wF,
   List.mem_singleton_self _, rfl⟩

/-- C6 amended: if, when `stop()` flips the flag, the worker is at its loop
head (or already exited) — rather than blocked inside `get(timeout=1)` —
then ever after: no result is ever added, the queued tasks are never dequeued
(the queue only ever grows by appends), and the worker only moves from the
loop head to `stopped`.  A worker blocked inside `get` at that moment may
still dequeue and process one queued task (see the counterexample). -/
theorem C6_stop_abandons_queue :
    ∀ s s' : WState,
      s.running = false →
      (s.phase = Phase.loopHead ∨ s.phase = Phase.stopped) →
      Relation.ReflTransGen WStep s s' →
      s'.results = s.results ∧ queueExtends s.queue s'.queue ∧
      s'.running = false ∧
      (s'.phase = Phase.loopHead ∨ s'.phase = Phase.stopped) := by
  intro s s' hrun hph hsteps
  induction hsteps with
  | refl => exact ⟨rfl, ⟨[], by simp⟩, hrun, hph⟩
  | tail hab hbc ih =>
    obtain ⟨hres, ⟨extra, hq⟩, hbrun, hbph⟩ := ih
    cases hbc with
    | checkRunTrue q res => simp at hbrun
    | checkRunFalse q res => exact ⟨hres, ⟨extra, hq⟩, rfl, Or.inr rfl⟩
    | getTimeout r res => rcases hbph with h | h <;> simp at h
    | getTask r t rest res => rcases hbph with h | h <;> simp at h
    | finishTask r q res t upload create =>
      rcases hbph with h | h <;> simp at h
    | submitTask r q ph res t =>
      refine ⟨hres, ⟨extra ++ [t], ?_⟩, hbrun, hbph⟩
      show q ++ [t] = s.queue ++ (extra ++ [t])
      rw [show q = s.queue ++ extra from hq, List.append_assoc]
    | stopCall r q ph res => exact ⟨hres, ⟨extra, hq⟩, rfl, hbph⟩

/-- C6 amended, witness: from state `wG` (stop observed at the loop head with
`tC6` queued), the worker's only move is to exit; the results stay empty and
`tC6` stays queued. -/
theorem C6_stop_abandons_queue_witness :
    wG.running = false ∧
    (wG.phase = Phase.loopHead ∨ wG.phase = Phase.stopped) ∧
    Relation.ReflTransGen WStep wG wGstop ∧
    (wGstop.results = wG.results ∧ queueExtends wG.queue wGstop.queue ∧
     wGstop.running = false ∧
     (wGstop.phase = Phase.loopHead ∨ wGstop.phase = Phase.stopped)) := by
  have hsteps : Relation.ReflTransGen WStep wG wGstop :=
    Relation.ReflTransGen.single (WStep.checkRunFalse [tC6] [])
  exact ⟨rfl, Or.inl rfl, hsteps,
    C6_stop_abandons_queue wG wGstop rfl (Or.inl rfl) hsteps⟩

end WooUpload
